import Mathlib

/-!
Shallow embedding of the mysqlmcp read-only MySQL MCP server (Go, package
main) and verification of its specification claims.

Modelling conventions:
* Go strings are modelled as `List Char` (`GoStr`); Go's `strings` helpers
  (`TrimSpace`, `ToLower`, `Contains`, `Split`, `TrimPrefix` specialised to
  the `"/"` prefix) are embedded as executable functions over `List Char`.
  Go's unicode handling is modelled for the Latin-1 range, which covers every
  character the classifier's decisions are about (ASCII SQL text).
* The external vitess SQL parser (`sqlparser.Parse`) is not repository code;
  it is modelled as an arbitrary function `parse : GoStr → Option Stmt`
  returning the statement's kind on success and `none` on a parse error.
  (`sqlparser.New` with empty `Options` cannot fail, so no separate
  initialisation failure is modelled; if it did fail the classifier would
  also return `false`.)
* The Go standard library `database/sql` driver is external; one request's
  interaction with it is modelled by a `DBBehavior` oracle saying which step
  fails and what columns/rows the driver yields, and the executor is a pure
  function of that oracle that additionally records the trace of database
  operations it performed (`DBEvent` list).
* `time.Time` is external; it is modelled as an instant plus a zone offset,
  and the stdlib formatter `Format(time.RFC3339Nano)` as an arbitrary
  rendering function `fmt3339 : GoTime → GoStr` applied after `.UTC`.
-/

namespace Mysqlmcp

/-- Go strings, modelled as lists of characters. -/
abbrev GoStr := List Char

/-- Go `unicode.IsSpace` restricted to the Latin-1 range:
space, \t, \n, \v, \f, \r, NEL (U+0085) and NBSP (U+00A0). -/
def goIsSpace (c : Char) : Bool :=
  c = ' ' || c = '\t' || c = '\n' || c.toNat = 11 || c.toNat = 12 ||
    c = '\r' || c.toNat = 133 || c.toNat = 160

/-- Go `strings.TrimSpace`: drop leading and trailing whitespace. -/
def goTrimSpace (s : GoStr) : GoStr :=
  ((s.dropWhile goIsSpace).reverse.dropWhile goIsSpace).reverse

/-- Go `strings.ToLower` (ASCII case mapping, which is what SQL text uses). -/
def goToLower (s : GoStr) : GoStr :=
  s.map Char.toLower

/-- Does `s` start with `pre`? (Go `strings.HasPrefix`.) -/
def goStartsWith : GoStr → GoStr → Bool
  | _, [] => true
  | [], _ :: _ => false
  | c :: s, d :: pre => c = d && goStartsWith s pre

/-- Go `strings.Contains`: `sub` occurs as a contiguous substring of `s`. -/
def goContains (s sub : GoStr) : Bool :=
  match s with
  | [] => goStartsWith [] sub
  | c :: rest => goStartsWith (c :: rest) sub || goContains rest sub

/-- Kinds of statement the vitess AST can come back as; the classifier's
`switch stmt.(type)` only distinguishes the four admitted kinds from
everything else, so all rejected kinds are summarised by representative
constructors plus `otherStmt`. -/
inductive Stmt
  | selectStmt
  | unionStmt
  | showStmt
  | explainStmt
  | insertStmt
  | updateStmt
  | deleteStmt
  | otherStmt
deriving DecidableEq, Repr

/-- The `switch stmt.(type)` in `isReadOnlyQuery`: admitted statement kinds. -/
def admittedKind : Stmt → Bool
  | .selectStmt => true
  | .unionStmt => true
  | .showStmt => true
  | .explainStmt => true
  | _ => false

/-- The classifier `isReadOnlyQuery` (part_000 lines 107-134): normalize (lower-case, trim),
reject empty text, reject text containing a semicolon, reject text containing
a non-empty deny fragment, then parse the ORIGINAL text and admit only
SELECT/UNION/SHOW/EXPLAIN kinds; parse failure rejects. -/
def isReadOnlyQuery (parse : GoStr → Option Stmt) (query : GoStr)
    (denySubstrings : List GoStr) : Bool :=
  let normalized := goTrimSpace (goToLower query)
  if normalized = [] then
    false
  else if goContains normalized [';'] then
    false
  else if denySubstrings.any
      (fun fragment => !fragment.isEmpty && goContains normalized fragment) then
    false
  else
    match parse query with
    | none => false
    | some stmt => admittedKind stmt

/-- Startup list normalization `normalizeList` (part_000 lines 96-105): lower-case and trim each entry,
dropping entries that are empty after trimming. -/
def normalizeList (values : List GoStr) : List GoStr :=
  match values with
  | [] => []
  | value :: rest =>
    let trimmed := goTrimSpace (goToLower value)
    if trimmed ≠ [] then trimmed :: normalizeList rest
    else normalizeList rest

/-- The default deny substrings installed by `loadConfig`
(part_000 line 425) when the config sets none. -/
def defaultDenySubstrings : List GoStr :=
  [" into outfile".toList, " into dumpfile".toList, " for update".toList,
    " lock in share mode".toList]

/-- Go `time.Time`, modelled as an instant (`unixNanos`) plus the attached
location's UTC offset in minutes; `.UTC()` keeps the instant and sets the
offset to zero. -/
structure GoTime where
  unixNanos : Int
  offsetMinutes : Int
deriving DecidableEq, Repr

/-- Go `time.Time.UTC`: same instant, UTC location. -/
def GoTime.utc (t : GoTime) : GoTime :=
  { t with offsetMinutes := 0 }

/-- Scalar values the MySQL driver can hand to `rows.Scan` through an
`interface{}` destination. `bytesV` carries the text the Go conversion
`string(v)` decodes the bytes to; `floatV` carries the untouched IEEE-754
bit pattern (the value merely passes through); `otherV` stands for any
driver-produced kind the `switch` does not name. -/
inductive Value
  | nullV
  | bytesV (text : GoStr)
  | timeV (t : GoTime)
  | intV (n : Int)
  | floatV (bits : Nat)
  | boolV (b : Bool)
  | strV (s : GoStr)
  | otherV (tag : Nat)
deriving DecidableEq, Repr

/-- Value normalization `normalizeValue` (part_000 lines 397-408): nil stays nil, `[]byte`
becomes its string decoding, `time.Time` becomes `v.UTC()` rendered with the
RFC3339Nano layout (the stdlib formatter is the parameter `fmt3339`), and
the `default` branch passes every other kind through unchanged. -/
def normalizeValue (fmt3339 : GoTime → GoStr) (value : Value) : Value :=
  match value with
  | .nullV => .nullV
  | .bytesV b => .strV b
  | .timeV t => .strV (fmt3339 t.utc)
  | v => v

/-- The `mysql` section of the TOML config, restricted to the fields the
executor reads (pool sizing and DSN are startup wiring, not core logic). -/
structure MySQLConfig where
  queryTimeoutSeconds : Int
  maxRows : Int
deriving DecidableEq, Repr

/-- Effective row cap (part_000 lines 180-183): default 1000 when the
configured value is unset or ≤ 0. -/
def effMaxRows (maxRows : Int) : Nat :=
  if maxRows ≤ 0 then 1000 else maxRows.toNat

/-- Effective query timeout in seconds (part_000 lines 142-145): default 30
when unset or ≤ 0. The deadline itself is context plumbing and carries no
further logic. -/
def effTimeoutSeconds (queryTimeoutSeconds : Int) : Int :=
  if queryTimeoutSeconds ≤ 0 then 30 else queryTimeoutSeconds

/-- One request's view of the external `database/sql` layer: which step
fails, the column names the driver declares (`none` models a nil slice),
and the rows `rows.Next`/`rows.Scan` yield in order (`none` for a row whose
scan fails, `some vals` for a successfully scanned row — the driver fills
all `len(columns)` destinations on success). `iterErr` is what `rows.Err()`
reports after the loop, `commitErr` whether `tx.Commit()` fails. -/
structure DBBehavior where
  connErr : Bool
  beginErr : Bool
  queryErr : Bool
  columnsErr : Bool
  columns : Option (List GoStr)
  rows : List (Option (List Value))
  iterErr : Bool
  commitErr : Bool
deriving DecidableEq, Repr

/-- Database-side operations the executor performs, recorded as a trace so
frame claims ("no query is executed on rejection") are statable. -/
inductive DBEvent
  | acquireConn
  | beginTx
  | execQuery
  | fetchColumns
  | rollback
  | commit
deriving DecidableEq, Repr

/-- Which human-readable error message `toolErrorResultf`/`fmt.Errorf` was
invoked with (the formatted text itself is I/O; the tag identifies it). -/
inductive ErrMsg
  | readOnlyOnly
  | acquireConnFailed
  | beginTxFailed
  | queryFailed
  | fetchColumnsFailed
  | readRowFailed
  | rowIterationFailed
  | commitFailed
deriving DecidableEq, Repr

/-- The output shape `QueryOutput` (part_000 lines 44-49). -/
structure QueryOutput where
  columns : List GoStr
  rows : List (List Value)
  rowCount : Nat
  truncated : Bool
deriving DecidableEq, Repr

/-- The `mcp.CallToolResult` the tool handler builds: the error flag, the
message tag of the text content (`none` when the text is just "ok"), and the
structured content (which mirrors a `QueryOutput`). -/
structure CallToolResult where
  isError : Bool
  message : Option ErrMsg
  structured : QueryOutput
deriving DecidableEq, Repr

/-- The all-empty output every error path reports. -/
def emptyQueryOutput : QueryOutput :=
  { columns := [], rows := [], rowCount := 0, truncated := false }

/-- Error result builder `toolErrorResultf` (part_000 lines 59-71): an error-flagged result whose
structured content is the empty output, paired with that empty output. -/
def toolErrorResultf (msg : ErrMsg) : CallToolResult × QueryOutput :=
  ({ isError := true, message := some msg, structured := emptyQueryOutput },
    emptyQueryOutput)

/-- The row-streaming loop (part_000 lines 185-208): consume pending rows,
break with the truncation flag once `maxRows` rows are accepted, fail on a
scan error, normalize each accepted row's values. Returns
`some (results, rowCount, truncated)` or `none` on a scan failure. -/
def scanRows (fmt3339 : GoTime → GoStr) (maxRows : Nat) :
    List (Option (List Value)) → List (List Value) → Nat →
    Option (List (List Value) × Nat × Bool)
  | [], results, rowCount => some (results, rowCount, false)
  | r :: rest, results, rowCount =>
    if maxRows ≤ rowCount then
      some (results, rowCount, true)
    else
      match r with
      | none => none
      | some vals =>
        scanRows fmt3339 maxRows rest
          (results ++ [vals.map (normalizeValue fmt3339)]) (rowCount + 1)

/-- The tool handler `runQuery` (part_000 lines 136-237) behind `mysql_query`.
Returns the `CallToolResult`, the `QueryOutput` and the trace of database
operations. The Go function's third return value (`error`) is `nil` on every
path, so it is not modelled: no failure escalates past the tool result.
Context/deadline plumbing (lines 142-147) and `defer` cleanup are I/O. -/
def runQuery (parse : GoStr → Option Stmt) (fmt3339 : GoTime → GoStr)
    (db : DBBehavior) (cfg : MySQLConfig) (denySubstrings : List GoStr)
    (query : GoStr) : CallToolResult × QueryOutput × List DBEvent :=
  if !isReadOnlyQuery parse query denySubstrings then
    let e := toolErrorResultf .readOnlyOnly
    (e.1, e.2, [])
  else if db.connErr then
    let e := toolErrorResultf .acquireConnFailed
    (e.1, e.2, [.acquireConn])
  else if db.beginErr then
    let e := toolErrorResultf .beginTxFailed
    (e.1, e.2, [.acquireConn, .beginTx])
  else if db.queryErr then
    let e := toolErrorResultf .queryFailed
    (e.1, e.2, [.acquireConn, .beginTx, .execQuery, .rollback])
  else if db.columnsErr then
    let e := toolErrorResultf .fetchColumnsFailed
    (e.1, e.2, [.acquireConn, .beginTx, .execQuery, .fetchColumns, .rollback])
  else
    let columns := match db.columns with
      | none => []
      | some cs => cs
    let maxRows := effMaxRows cfg.maxRows
    match scanRows fmt3339 maxRows db.rows [] 0 with
    | none =>
      let e := toolErrorResultf .readRowFailed
      (e.1, e.2, [.acquireConn, .beginTx, .execQuery, .fetchColumns, .rollback])
    | some (results, rowCount, truncated) =>
      if db.iterErr then
        let e := toolErrorResultf .rowIterationFailed
        (e.1, e.2,
          [.acquireConn, .beginTx, .execQuery, .fetchColumns, .rollback])
      else if db.commitErr then
        let e := toolErrorResultf .commitFailed
        (e.1, e.2,
          [.acquireConn, .beginTx, .execQuery, .fetchColumns, .commit])
      else
        let output : QueryOutput :=
          { columns := columns, rows := results,
            rowCount := rowCount, truncated := truncated }
        ({ isError := false, message := none, structured := output }, output,
          [.acquireConn, .beginTx, .execQuery, .fetchColumns, .commit])

/-- The resource-path executor `runQueryForResource` (part_000 lines 239-329): same pipeline as
`runQuery`, but failures are returned as Go errors (`Except.error`) instead
of an error-flagged tool result. -/
def runQueryForResource (parse : GoStr → Option Stmt)
    (fmt3339 : GoTime → GoStr) (db : DBBehavior) (cfg : MySQLConfig)
    (denySubstrings : List GoStr) (query : GoStr) :
    Except ErrMsg QueryOutput × List DBEvent :=
  if !isReadOnlyQuery parse query denySubstrings then
    (.error .readOnlyOnly, [])
  else if db.connErr then
    (.error .acquireConnFailed, [.acquireConn])
  else if db.beginErr then
    (.error .beginTxFailed, [.acquireConn, .beginTx])
  else if db.queryErr then
    (.error .queryFailed, [.acquireConn, .beginTx, .execQuery, .rollback])
  else if db.columnsErr then
    (.error .fetchColumnsFailed,
      [.acquireConn, .beginTx, .execQuery, .fetchColumns, .rollback])
  else
    let columns := match db.columns with
      | none => []
      | some cs => cs
    let maxRows := effMaxRows cfg.maxRows
    match scanRows fmt3339 maxRows db.rows [] 0 with
    | none =>
      (.error .readRowFailed,
        [.acquireConn, .beginTx, .execQuery, .fetchColumns, .rollback])
    | some (results, rowCount, truncated) =>
      if db.iterErr then
        (.error .rowIterationFailed,
          [.acquireConn, .beginTx, .execQuery, .fetchColumns, .rollback])
      else if db.commitErr then
        (.error .commitFailed,
          [.acquireConn, .beginTx, .execQuery, .fetchColumns, .commit])
      else
        (.ok { columns := columns, rows := results,
               rowCount := rowCount, truncated := truncated },
          [.acquireConn, .beginTx, .execQuery, .fetchColumns, .commit])

/-- Matching against `mysqlIdentifierRE` (part_000 line 57): the whole string is
one or more of `[A-Za-z0-9_]`. -/
def mysqlIdentifierRE (s : GoStr) : Bool :=
  !s.isEmpty && s.all (fun c => c.isAlpha || c.isDigit || c = '_')

/-- The result of `url.Parse` on the resource URI: scheme, host, path.
(`readResource` returns the parse error itself when `url.Parse` fails; the
router logic modelled here starts from a successfully parsed URL.) -/
structure ParsedURL where
  scheme : GoStr
  host : GoStr
  path : GoStr
deriving DecidableEq, Repr

/-- Go `strings.TrimPrefix(u.Path, "/")` as used on part_000 line 342. -/
def goTrimLeadingSlash (path : GoStr) : GoStr :=
  if goStartsWith path ['/'] then path.drop 1 else path

/-- The three canned catalog queries the resource router can build. -/
inductive CatalogQuery
  | showDatabases
  | showTables (db : GoStr)
  | describeTable (db table : GoStr)
deriving DecidableEq, Repr

/-- The SQL text `readResource` builds for a canned query
(part_000 lines 354, 363, 373). -/
def catalogQueryText : CatalogQuery → GoStr
  | .showDatabases => "SHOW DATABASES".toList
  | .showTables db => "SHOW TABLES FROM `".toList ++ db ++ "`".toList
  | .describeTable db table =>
    "DESCRIBE `".toList ++ db ++ "`.`".toList ++ table ++ "`".toList

/-- The path-segment extraction of `readResource` (part_000 lines 342-346):
drop one leading `/`, then an empty path gives no segments and a non-empty
path splits on `/`. -/
def urlPathParts (u : ParsedURL) : List GoStr :=
  let trimmedPath := goTrimLeadingSlash u.path
  if trimmedPath = [] then [] else trimmedPath.splitOn '/'

/-- The locator-to-query routing of `readResource` (part_000 lines 337-376):
`none` is the `mcp.ResourceNotFoundError` outcome. Scheme and host are
lower-cased; the path loses one leading `/` and splits on `/` (empty path ⇒
no segments); each identifier segment must match `mysqlIdentifierRE`. -/
def resolveResource (u : ParsedURL) : Option CatalogQuery :=
  if goToLower u.scheme ≠ "mysql".toList then
    none
  else
    let host := goToLower u.host
    let pathParts : List GoStr := urlPathParts u
    if host = "databases".toList then
      match pathParts with
      | [] => some .showDatabases
      | _ :: _ => none
    else if host = "tables".toList then
      match pathParts with
      | [db] => if mysqlIdentifierRE db then some (.showTables db) else none
      | _ => none
    else if host = "schema".toList then
      match pathParts with
      | [db, table] =>
        if mysqlIdentifierRE db && mysqlIdentifierRE table then
          some (.describeTable db table)
        else none
      | _ => none
    else
      none

/-- Outcome of a catalog resource read: not-found, an execution error from
the query pipeline, or the JSON-encoded bounded result. -/
inductive ReadResourceOutcome
  | notFound
  | execError (e : ErrMsg)
  | ok (out : QueryOutput)
deriving DecidableEq, Repr

/-- The resource reader `readResource` (part_000 lines 331-395) past URL parsing: resolve the
locator; not-found outcomes return before any query runs (empty trace);
otherwise the canned query text goes through `runQueryForResource`. -/
def readResource (parse : GoStr → Option Stmt) (fmt3339 : GoTime → GoStr)
    (db : DBBehavior) (cfg : MySQLConfig) (denySubstrings : List GoStr)
    (u : ParsedURL) : ReadResourceOutcome × List DBEvent :=
  match resolveResource u with
  | none => (.notFound, [])
  | some q =>
    match runQueryForResource parse fmt3339 db cfg denySubstrings
        (catalogQueryText q) with
    | (.error e, tr) => (.execError e, tr)
    | (.ok out, tr) => (.ok out, tr)

/-- The error-path outcome shape of the tool handler: failure flag set, the
given message attached, and both the structured content and the returned
output empty. -/
def errorOutcome (r : CallToolResult × QueryOutput × List DBEvent)
    (m : ErrMsg) : Prop :=
  r.1.isError = true ∧ r.1.message = some m ∧
  r.1.structured = emptyQueryOutput ∧ r.2.1 = emptyQueryOutput

/-- Concrete parser used to evaluate theorems at sample inputs: every text
parses as a SELECT statement. -/
def sampleParse : GoStr → Option Stmt := fun _ => some Stmt.selectStmt

/-- Concrete RFC3339Nano renderer used at sample inputs. -/
def sampleFmt : GoTime → GoStr := fun _ => []

/-- Sample config: row cap 2. -/
def sampleCfg : MySQLConfig := { queryTimeoutSeconds := 0, maxRows := 2 }

/-- Sample driver rows: three one-column rows. -/
def sampleOkRows : List (List Value) := [[.intV 1], [.intV 2], [.intV 3]]

/-- Sample database behavior: everything succeeds, one declared column. -/
def sampleDb : DBBehavior :=
  { connErr := false, beginErr := false, queryErr := false,
    columnsErr := false, columns := some [['a']],
    rows := sampleOkRows.map some, iterErr := false, commitErr := false }

/-- Sample database behavior whose commit fails after all rows were read. -/
def sampleCommitFailDb : DBBehavior := { sampleDb with commitErr := true }

/-- Sample locator with a database segment failing the identifier pattern. -/
def sampleBadURL : ParsedURL :=
  { scheme := "mysql".toList, host := "tables".toList,
    path := "/my-db; drop".toList }

/-! Helper lemmas shared by the claim theorems. -/

lemma any_deny_false {query : GoStr} {deny : List GoStr}
    (h3 : ∀ f ∈ deny, f ≠ [] →
      goContains (goTrimSpace (goToLower query)) f = false) :
    deny.any (fun fragment => !fragment.isEmpty &&
      goContains (goTrimSpace (goToLower query)) fragment) = false := by
  rw [List.any_eq_false]
  intro f hf
  by_cases hfe : f = []
  · subst hfe; simp
  · simp [h3 f hf hfe]

lemma isReadOnlyQuery_of_checks {parse : GoStr → Option Stmt} {query : GoStr}
    {deny : List GoStr}
    (h1 : goTrimSpace (goToLower query) ≠ [])
    (h2 : goContains (goTrimSpace (goToLower query)) [';'] = false)
    (h3 : ∀ f ∈ deny, f ≠ [] →
      goContains (goTrimSpace (goToLower query)) f = false) :
    isReadOnlyQuery parse query deny =
      (match parse query with
       | none => false
       | some stmt => admittedKind stmt) := by
  unfold isReadOnlyQuery
  simp only [h2, any_deny_false h3, Bool.false_eq_true, if_false, if_neg h1]

lemma isReadOnlyQuery_deny_false {parse : GoStr → Option Stmt} {query : GoStr}
    {deny : List GoStr} {f : GoStr} (hmem : f ∈ deny) (hne : f ≠ [])
    (hsub : goContains (goTrimSpace (goToLower query)) f = true) :
    isReadOnlyQuery parse query deny = false := by
  have hany : deny.any (fun fragment => !fragment.isEmpty &&
      goContains (goTrimSpace (goToLower query)) fragment) = true := by
    rw [List.any_eq_true]
    refine ⟨f, hmem, ?_⟩
    cases f with
    | nil => exact absurd rfl hne
    | cons a as => simp [hsub, List.isEmpty]
  unfold isReadOnlyQuery
  simp [hany]

lemma scanRows_map_some (fmt3339 : GoTime → GoStr) (m : Nat) :
    ∀ (okRows : List (List Value)) (acc : List (List Value)) (count : Nat),
      scanRows fmt3339 m (okRows.map some) acc count =
        some (acc ++ (okRows.take (m - count)).map
            (List.map (normalizeValue fmt3339)),
          count + min okRows.length (m - count),
          decide (m - count < okRows.length)) := by
  intro okRows
  induction okRows with
  | nil =>
    intro acc count
    simp [scanRows]
  | cons r rest ih =>
    intro acc count
    simp only [List.map_cons, scanRows]
    by_cases hmc : m ≤ count
    · rw [if_pos hmc]
      have h0 : m - count = 0 := by omega
      simp [h0]
    · rw [if_neg hmc]
      rw [ih]
      obtain ⟨k, hk⟩ : ∃ k, m - count = k + 1 := ⟨m - count - 1, by omega⟩
      have hk' : m - (count + 1) = k := by omega
      rw [hk, hk', List.take_succ_cons]
      simp only [List.map_cons, List.length_cons, Option.some.injEq,
        Prod.mk.injEq]
      refine ⟨by simp, by omega, ?_⟩
      rw [decide_eq_decide]
      omega

lemma runQuery_success_eq (parse : GoStr → Option Stmt)
    (fmt3339 : GoTime → GoStr) (db : DBBehavior) (cfg : MySQLConfig)
    (deny : List GoStr) (query : GoStr) (okRows : List (List Value))
    (hok : isReadOnlyQuery parse query deny = true)
    (hconn : db.connErr = false) (hbegin : db.beginErr = false)
    (hquery : db.queryErr = false) (hcols : db.columnsErr = false)
    (hrows : db.rows = okRows.map some)
    (hiter : db.iterErr = false) (hcommit : db.commitErr = false) :
    runQuery parse fmt3339 db cfg deny query =
      (let output : QueryOutput :=
        { columns := db.columns.getD [],
          rows := (okRows.take (effMaxRows cfg.maxRows)).map
            (List.map (normalizeValue fmt3339)),
          rowCount := min okRows.length (effMaxRows cfg.maxRows),
          truncated := decide (effMaxRows cfg.maxRows < okRows.length) }
       ({ isError := false, message := none, structured := output }, output,
        [.acquireConn, .beginTx, .execQuery, .fetchColumns, .commit])) := by
  unfold runQuery
  rw [hok, hconn, hbegin, hquery, hcols, hrows]
  simp only [Bool.not_true, Bool.false_eq_true, if_false]
  rw [scanRows_map_some]
  simp only [Nat.sub_zero, List.nil_append, hiter, hcommit, Bool.false_eq_true,
    if_false]
  cases db.columns with
  | none => simp
  | some cs => simp

lemma runQuery_shape (parse : GoStr → Option Stmt) (fmt3339 : GoTime → GoStr)
    (db : DBBehavior) (cfg : MySQLConfig) (deny : List GoStr)
    (query : GoStr) :
    (∃ m tr, runQuery parse fmt3339 db cfg deny query =
      ((toolErrorResultf m).1, (toolErrorResultf m).2, tr)) ∨
    (∃ out tr, runQuery parse fmt3339 db cfg deny query =
      ({ isError := false, message := none, structured := out }, out,
        tr)) := by
  unfold runQuery
  dsimp only []
  repeat' split
  all_goals
    first
    | exact Or.inl ⟨_, _, rfl⟩
    | exact Or.inr ⟨_, _, rfl⟩

lemma resolveResource_scheme_ne {u : ParsedURL}
    (hs : goToLower u.scheme ≠ "mysql".toList) : resolveResource u = none := by
  unfold resolveResource
  rw [if_pos hs]

lemma resolveResource_of_scheme {u : ParsedURL}
    (hs : goToLower u.scheme = "mysql".toList) :
    resolveResource u =
      (if goToLower u.host = "databases".toList then
        match urlPathParts u with
        | [] => some .showDatabases
        | _ :: _ => none
      else if goToLower u.host = "tables".toList then
        match urlPathParts u with
        | [db] => if mysqlIdentifierRE db then some (.showTables db) else none
        | _ => none
      else if goToLower u.host = "schema".toList then
        match urlPathParts u with
        | [db, table] =>
          if mysqlIdentifierRE db && mysqlIdentifierRE table then
            some (.describeTable db table)
          else none
        | _ => none
      else none) := by
  unfold resolveResource
  rw [if_neg (by simp [hs])]

/-! The claim theorems. -/

/-- Claim C1: for every query text that is non-empty after normalization,
contains no `;`, and contains no configured non-empty deny substring,
`isReadOnlyQuery` admits the text if and only if the text parses
successfully under the SQL grammar and the parsed statement's kind is
SELECT, UNION, SHOW, or EXPLAIN; in particular, for all syntactically
invalid text (parse failure), admission is false. -/
theorem isReadOnlyQuery_admits_iff_parsed_kind
    (parse : GoStr → Option Stmt) (query : GoStr) (deny : List GoStr)
    (h1 : goTrimSpace (goToLower query) ≠ [])
    (h2 : goContains (goTrimSpace (goToLower query)) [';'] = false)
    (h3 : ∀ f ∈ deny, f ≠ [] →
      goContains (goTrimSpace (goToLower query)) f = false) :
    (isReadOnlyQuery parse query deny = true ↔
      ∃ stmt, parse query = some stmt ∧ admittedKind stmt = true) ∧
    (parse query = none → isReadOnlyQuery parse query deny = false) := by
  rw [isReadOnlyQuery_of_checks h1 h2 h3]
  constructor
  · cases hp : parse query with
    | none => simp
    | some stmt => simp
  · intro hp
    rw [hp]

/-- Witness for C1 at the admitted text `select 1` with the default deny
list and an always-SELECT parser. -/
theorem isReadOnlyQuery_admits_iff_parsed_kind_witness :
    (isReadOnlyQuery sampleParse "select 1".toList
        (normalizeList defaultDenySubstrings) = true ↔
      ∃ stmt, sampleParse "select 1".toList = some stmt ∧
        admittedKind stmt = true) ∧
    (sampleParse "select 1".toList = none →
      isReadOnlyQuery sampleParse "select 1".toList
        (normalizeList defaultDenySubstrings) = false) :=
  isReadOnlyQuery_admits_iff_parsed_kind sampleParse "select 1".toList
    (normalizeList defaultDenySubstrings) (by decide) (by decide) (by decide)

/-- Claim C2: any query whose trimmed, lower-cased form contains `;` is
rejected by `isReadOnlyQuery` regardless of what it would parse as, and
text that is empty after normalization (empty or whitespace-only) is
rejected as well. -/
theorem isReadOnlyQuery_rejects_semicolon_and_empty
    (parse : GoStr → Option Stmt) (query : GoStr) (deny : List GoStr) :
    (goContains (goTrimSpace (goToLower query)) [';'] = true →
      isReadOnlyQuery parse query deny = false) ∧
    (goTrimSpace (goToLower query) = [] →
      isReadOnlyQuery parse query deny = false) := by
  constructor
  · intro h
    unfold isReadOnlyQuery
    simp [h]
  · intro h
    unfold isReadOnlyQuery
    simp [h]

/-- Witness for C2: a two-statement batch and a whitespace-only text are
both rejected, under a parser that calls everything a SELECT. -/
theorem isReadOnlyQuery_rejects_semicolon_and_empty_witness :
    isReadOnlyQuery sampleParse "select 1; select 2".toList [] = false ∧
    isReadOnlyQuery sampleParse "   ".toList [] = false :=
  ⟨(isReadOnlyQuery_rejects_semicolon_and_empty sampleParse
      "select 1; select 2".toList []).1 (by decide),
    (isReadOnlyQuery_rejects_semicolon_and_empty sampleParse
      "   ".toList []).2 (by decide)⟩

/-- Claim C3: any query whose trimmed, lower-cased form contains a
configured non-empty deny substring is rejected by `isReadOnlyQuery`, even
if the text parses as a SELECT statement (the parser is universally
quantified, so the rejection holds whatever the parse result is). -/
theorem isReadOnlyQuery_rejects_deny_fragment
    (parse : GoStr → Option Stmt) (query : GoStr) (deny : List GoStr)
    (f : GoStr) (hmem : f ∈ deny) (hne : f ≠ [])
    (hsub : goContains (goTrimSpace (goToLower query)) f = true) :
    isReadOnlyQuery parse query deny = false :=
  isReadOnlyQuery_deny_false hmem hne hsub

/-- Witness for C3: `select * from t for update` is rejected through the
default deny list even though the parser reports a SELECT kind. -/
theorem isReadOnlyQuery_rejects_deny_fragment_witness :
    isReadOnlyQuery sampleParse "select * from t for update".toList
      (normalizeList defaultDenySubstrings) = false :=
  isReadOnlyQuery_rejects_deny_fragment sampleParse
    "select * from t for update".toList
    (normalizeList defaultDenySubstrings) "for update".toList
    (by decide) (by decide) (by decide)

/-- Claim C10 (implicit): the deny list the handler uses is
`normalizeList` of the configured one — each entry lower-cased and trimmed
with empty-after-trimming entries dropped (so they never cause rejection),
and consequently the leading space of the default entry " for update" is
not significant: any text containing "for update" is rejected. -/
theorem deny_list_normalized_at_startup :
    (∀ values, normalizeList values =
      (values.map (fun v => goTrimSpace (goToLower v))).filter
        (fun t => !t.isEmpty)) ∧
    (∀ values f, f ∈ normalizeList values → f ≠ []) ∧
    (∀ (parse : GoStr → Option Stmt) (query ws : GoStr) values,
      goTrimSpace (goToLower ws) = [] →
      isReadOnlyQuery parse query (normalizeList (ws :: values)) =
        isReadOnlyQuery parse query (normalizeList values)) ∧
    (∀ (parse : GoStr → Option Stmt) (query : GoStr),
      goContains (goTrimSpace (goToLower query)) "for update".toList = true →
      isReadOnlyQuery parse query (normalizeList defaultDenySubstrings) =
        false) := by
  refine ⟨?_, ?_, ?_, ?_⟩
  · intro values
    induction values with
    | nil => rfl
    | cons v rest ih =>
      by_cases h : goTrimSpace (goToLower v) = []
      · simp [normalizeList, h, ih]
      · have hne : (goTrimSpace (goToLower v)).isEmpty = false := by
          cases hv : goTrimSpace (goToLower v) with
          | nil => exact absurd hv h
          | cons a as => rfl
        simp [normalizeList, h, ih, List.filter_cons, hne]
  · intro values f hf
    induction values with
    | nil => simp [normalizeList] at hf
    | cons v rest ih =>
      by_cases h : goTrimSpace (goToLower v) = []
      · rw [normalizeList] at hf
        simp [h] at hf
        exact ih hf
      · rw [normalizeList] at hf
        simp [h] at hf
        cases hf with
        | inl heq => subst heq; exact h
        | inr hmem => exact ih hmem
  · intro parse query ws values h
    simp [normalizeList, h]
  · intro parse query hsub
    exact isReadOnlyQuery_deny_false (f := "for update".toList) (by decide)
      (by decide) hsub

/-- Witness for C10: text containing "for update" without the configured
leading space is still rejected under the normalized default deny list. -/
theorem deny_list_normalized_at_startup_witness :
    isReadOnlyQuery sampleParse "select x,for update".toList
      (normalizeList defaultDenySubstrings) = false :=
  deny_list_normalized_at_startup.2.2.2 sampleParse
    "select x,for update".toList (by decide)

/-- Claim C4: when the pipeline succeeds, an underlying result with more
than `max_rows` rows yields exactly `max_rows` returned rows and
`truncated = true`; with `max_rows` or fewer rows, every row is returned,
`truncated = false`, and `rowCount` equals the true row count; and when the
configured `max_rows` is unset or ≤ 0, the effective cap is 1000. -/
theorem runQuery_row_limit_and_truncation
    (parse : GoStr → Option Stmt) (fmt3339 : GoTime → GoStr)
    (db : DBBehavior) (cfg : MySQLConfig) (deny : List GoStr) (query : GoStr)
    (okRows : List (List Value))
    (hok : isReadOnlyQuery parse query deny = true)
    (hconn : db.connErr = false) (hbegin : db.beginErr = false)
    (hquery : db.queryErr = false) (hcols : db.columnsErr = false)
    (hrows : db.rows = okRows.map some)
    (hiter : db.iterErr = false) (hcommit : db.commitErr = false) :
    (okRows.length > effMaxRows cfg.maxRows →
      (runQuery parse fmt3339 db cfg deny query).2.1.rows.length =
        effMaxRows cfg.maxRows ∧
      (runQuery parse fmt3339 db cfg deny query).2.1.truncated = true) ∧
    (okRows.length ≤ effMaxRows cfg.maxRows →
      (runQuery parse fmt3339 db cfg deny query).2.1.rows =
        okRows.map (List.map (normalizeValue fmt3339)) ∧
      (runQuery parse fmt3339 db cfg deny query).2.1.truncated = false ∧
      (runQuery parse fmt3339 db cfg deny query).2.1.rowCount =
        okRows.length) ∧
    (cfg.maxRows ≤ 0 → effMaxRows cfg.maxRows = 1000) := by
  rw [runQuery_success_eq parse fmt3339 db cfg deny query okRows hok hconn
    hbegin hquery hcols hrows hiter hcommit]
  refine ⟨?_, ?_, ?_⟩
  · intro hgt
    constructor
    · simp only [List.length_map, List.length_take]
      omega
    · simp only [decide_eq_true_eq]
      omega
  · intro hle
    refine ⟨?_, ?_, ?_⟩
    · simp [List.take_of_length_le hle]
    · simp only [decide_eq_false_iff_not]
      omega
    · simp only []
      omega
  · intro h
    simp [effMaxRows, h]

/-- Witness for C4: three driver rows against a cap of 2 produce exactly 2
rows with the truncation flag set. -/
theorem runQuery_row_limit_and_truncation_witness :
    (runQuery sampleParse sampleFmt sampleDb sampleCfg []
        "select 1".toList).2.1.rows.length = effMaxRows sampleCfg.maxRows ∧
    (runQuery sampleParse sampleFmt sampleDb sampleCfg []
        "select 1".toList).2.1.truncated = true :=
  (runQuery_row_limit_and_truncation sampleParse sampleFmt sampleDb sampleCfg
    [] "select 1".toList sampleOkRows (by decide) rfl rfl rfl rfl rfl rfl
    rfl).1 (by decide)

/-- Claim C6: on admission rejection and on every execution failure
(connection acquisition, transaction begin, query, column fetch, row scan,
row iteration, commit) the tool returns the same shape with empty columns
and rows, rowCount 0, truncated false, the corresponding human-readable
message attached and the failure flag set; rows already read before a
commit failure are not returned. -/
theorem runQuery_failure_empty_output (parse : GoStr → Option Stmt)
    (fmt3339 : GoTime → GoStr) (db : DBBehavior) (cfg : MySQLConfig)
    (deny : List GoStr) (query : GoStr) :
    ((runQuery parse fmt3339 db cfg deny query).1.isError = true →
      (runQuery parse fmt3339 db cfg deny query).2.1 = emptyQueryOutput ∧
      (runQuery parse fmt3339 db cfg deny query).1.structured =
        emptyQueryOutput ∧
      ((runQuery parse fmt3339 db cfg deny query).1.message).isSome =
        true) ∧
    (isReadOnlyQuery parse query deny = false →
      errorOutcome (runQuery parse fmt3339 db cfg deny query)
        .readOnlyOnly) ∧
    (isReadOnlyQuery parse query deny = true → db.connErr = true →
      errorOutcome (runQuery parse fmt3339 db cfg deny query)
        .acquireConnFailed) ∧
    (isReadOnlyQuery parse query deny = true → db.connErr = false →
      db.beginErr = true →
      errorOutcome (runQuery parse fmt3339 db cfg deny query)
        .beginTxFailed) ∧
    (isReadOnlyQuery parse query deny = true → db.connErr = false →
      db.beginErr = false → db.queryErr = true →
      errorOutcome (runQuery parse fmt3339 db cfg deny query)
        .queryFailed) ∧
    (isReadOnlyQuery parse query deny = true → db.connErr = false →
      db.beginErr = false → db.queryErr = false → db.columnsErr = true →
      errorOutcome (runQuery parse fmt3339 db cfg deny query)
        .fetchColumnsFailed) ∧
    (isReadOnlyQuery parse query deny = true → db.connErr = false →
      db.beginErr = false → db.queryErr = false → db.columnsErr = false →
      scanRows fmt3339 (effMaxRows cfg.maxRows) db.rows [] 0 = none →
      errorOutcome (runQuery parse fmt3339 db cfg deny query)
        .readRowFailed) ∧
    (∀ results rowCount truncated,
      isReadOnlyQuery parse query deny = true → db.connErr = false →
      db.beginErr = false → db.queryErr = false → db.columnsErr = false →
      scanRows fmt3339 (effMaxRows cfg.maxRows) db.rows [] 0 =
        some (results, rowCount, truncated) →
      db.iterErr = true →
      errorOutcome (runQuery parse fmt3339 db cfg deny query)
        .rowIterationFailed) ∧
    (∀ okRows : List (List Value),
      isReadOnlyQuery parse query deny = true → db.connErr = false →
      db.beginErr = false → db.queryErr = false → db.columnsErr = false →
      db.rows = okRows.map some → db.iterErr = false → db.commitErr = true →
      errorOutcome (runQuery parse fmt3339 db cfg deny query)
        .commitFailed ∧
      (runQuery parse fmt3339 db cfg deny query).2.1.rows = []) := by
  refine ⟨?_, ?_, ?_, ?_, ?_, ?_, ?_, ?_, ?_⟩
  · intro h
    rcases runQuery_shape parse fmt3339 db cfg deny query with
      ⟨m, tr, heq⟩ | ⟨out, tr, heq⟩
    · rw [heq]
      simp [toolErrorResultf, emptyQueryOutput]
    · rw [heq] at h
      simp at h
  · intro hrej
    simp [runQuery, hrej, toolErrorResultf, errorOutcome]
  · intro hok hconn
    simp [runQuery, hok, hconn, toolErrorResultf, errorOutcome]
  · intro hok hconn hbegin
    simp [runQuery, hok, hconn, hbegin, toolErrorResultf, errorOutcome]
  · intro hok hconn hbegin hquery
    simp [runQuery, hok, hconn, hbegin, hquery, toolErrorResultf,
      errorOutcome]
  · intro hok hconn hbegin hquery hcols
    simp [runQuery, hok, hconn, hbegin, hquery, hcols, toolErrorResultf,
      errorOutcome]
  · intro hok hconn hbegin hquery hcols hscan
    simp [runQuery, hok, hconn, hbegin, hquery, hcols, hscan,
      toolErrorResultf, errorOutcome]
  · intro results rowCount truncated hok hconn hbegin hquery hcols hscan
      hiter
    simp [runQuery, hok, hconn, hbegin, hquery, hcols, hscan, hiter,
      toolErrorResultf, errorOutcome]
  · intro okRows hok hconn hbegin hquery hcols hrows hiter hcommit
    rw [runQuery] at *
    rw [hok, hconn, hbegin, hquery, hcols, hrows]
    simp only [Bool.not_true, Bool.false_eq_true, if_false]
    rw [scanRows_map_some]
    simp [hiter, hcommit, toolErrorResultf, errorOutcome, emptyQueryOutput]

/-- Witness for C6: a commit failure after three rows were read returns the
flagged empty result, not the rows. -/
theorem runQuery_failure_empty_output_witness :
    errorOutcome (runQuery sampleParse sampleFmt sampleCommitFailDb sampleCfg
      [] "select 1".toList) .commitFailed ∧
    (runQuery sampleParse sampleFmt sampleCommitFailDb sampleCfg []
      "select 1".toList).2.1.rows = [] :=
  (runQuery_failure_empty_output sampleParse sampleFmt sampleCommitFailDb
    sampleCfg [] "select 1".toList).2.2.2.2.2.2.2.2 sampleOkRows (by decide)
    rfl rfl rfl rfl rfl rfl rfl

/-- Claim C7: every successfully returned query result has
`rowCount = len(rows)`, `rowCount ≤ max_rows`, every row exactly
`len(columns)` values wide (given the driver contract that scanned rows
match the declared column count), and a columns field that is an explicit
list — a nil driver column set is normalized to the empty list. -/
theorem runQuery_success_result_invariants (parse : GoStr → Option Stmt)
    (fmt3339 : GoTime → GoStr) (db : DBBehavior) (cfg : MySQLConfig)
    (deny : List GoStr) (query : GoStr) (okRows : List (List Value))
    (hok : isReadOnlyQuery parse query deny = true)
    (hconn : db.connErr = false) (hbegin : db.beginErr = false)
    (hquery : db.queryErr = false) (hcols : db.columnsErr = false)
    (hrows : db.rows = okRows.map some)
    (hiter : db.iterErr = false) (hcommit : db.commitErr = false)
    (hwidth : ∀ row ∈ okRows, row.length = (db.columns.getD []).length) :
    (runQuery parse fmt3339 db cfg deny query).1.isError = false ∧
    (runQuery parse fmt3339 db cfg deny query).2.1.rowCount =
      (runQuery parse fmt3339 db cfg deny query).2.1.rows.length ∧
    (runQuery parse fmt3339 db cfg deny query).2.1.rowCount ≤
      effMaxRows cfg.maxRows ∧
    (∀ row ∈ (runQuery parse fmt3339 db cfg deny query).2.1.rows,
      row.length =
        (runQuery parse fmt3339 db cfg deny query).2.1.columns.length) ∧
    (db.columns = none →
      (runQuery parse fmt3339 db cfg deny query).2.1.columns = []) ∧
    (runQuery parse fmt3339 db cfg deny query).1.structured =
      (runQuery parse fmt3339 db cfg deny query).2.1 := by
  rw [runQuery_success_eq parse fmt3339 db cfg deny query okRows hok hconn
    hbegin hquery hcols hrows hiter hcommit]
  refine ⟨rfl, ?_, ?_, ?_, ?_, rfl⟩
  · simp only [List.length_map, List.length_take]
    omega
  · simp only []
    omega
  · intro row hrow
    simp only [List.mem_map] at hrow
    obtain ⟨r, hr, hmap⟩ := hrow
    have hr' : r ∈ okRows := List.take_subset _ _ hr
    rw [← hmap]
    simp [hwidth r hr']
  · intro h
    simp [h]

/-- Witness for C7 at the sample behavior (one declared column, three
one-value rows, cap 2). -/
theorem runQuery_success_result_invariants_witness :
    (runQuery sampleParse sampleFmt sampleDb sampleCfg []
      "select 1".toList).1.isError = false ∧
    (runQuery sampleParse sampleFmt sampleDb sampleCfg []
        "select 1".toList).2.1.rowCount =
      (runQuery sampleParse sampleFmt sampleDb sampleCfg []
        "select 1".toList).2.1.rows.length ∧
    (runQuery sampleParse sampleFmt sampleDb sampleCfg []
        "select 1".toList).2.1.rowCount ≤ effMaxRows sampleCfg.maxRows ∧
    (∀ row ∈ (runQuery sampleParse sampleFmt sampleDb sampleCfg []
        "select 1".toList).2.1.rows,
      row.length = (runQuery sampleParse sampleFmt sampleDb sampleCfg []
        "select 1".toList).2.1.columns.length) ∧
    (sampleDb.columns = none →
      (runQuery sampleParse sampleFmt sampleDb sampleCfg []
        "select 1".toList).2.1.columns = []) ∧
    (runQuery sampleParse sampleFmt sampleDb sampleCfg []
        "select 1".toList).1.structured =
      (runQuery sampleParse sampleFmt sampleDb sampleCfg []
        "select 1".toList).2.1 :=
  runQuery_success_result_invariants sampleParse sampleFmt sampleDb sampleCfg
    [] "select 1".toList sampleOkRows (by decide) rfl rfl rfl rfl rfl rfl rfl
    (by decide)

/-- Claim C8: value normalization is total over every scalar kind — null
stays null, byte sequences become their text decoding, timestamps become
the RFC3339Nano rendering of the UTC-converted instant (offset zero), and
numbers, floats, booleans, native strings and unrecognized kinds pass
through unchanged. Totality itself holds by construction: `normalizeValue`
is a total function on `Value`. -/
theorem normalizeValue_total_behavior (fmt3339 : GoTime → GoStr) :
    normalizeValue fmt3339 .nullV = .nullV ∧
    (∀ b, normalizeValue fmt3339 (.bytesV b) = .strV b) ∧
    (∀ t, normalizeValue fmt3339 (.timeV t) = .strV (fmt3339 t.utc) ∧
      t.utc.offsetMinutes = 0) ∧
    (∀ n, normalizeValue fmt3339 (.intV n) = .intV n) ∧
    (∀ bits, normalizeValue fmt3339 (.floatV bits) = .floatV bits) ∧
    (∀ b, normalizeValue fmt3339 (.boolV b) = .boolV b) ∧
    (∀ s, normalizeValue fmt3339 (.strV s) = .strV s) ∧
    (∀ tag, normalizeValue fmt3339 (.otherV tag) = .otherV tag) :=
  ⟨rfl, fun _ => rfl, fun _ => ⟨rfl, rfl⟩, fun _ => rfl, fun _ => rfl,
    fun _ => rfl, fun _ => rfl, fun _ => rfl⟩

/-- Claim C9: a query that fails admission is answered before any database
interaction — the result is the read-only-violation tool failure (non-fatal:
the handler returns it as a result, not a Go error) and the trace of
database operations is empty, on both the tool path and the resource
path. -/
theorem rejected_query_no_db_interaction (parse : GoStr → Option Stmt)
    (fmt3339 : GoTime → GoStr) (db : DBBehavior) (cfg : MySQLConfig)
    (deny : List GoStr) (query : GoStr)
    (hrej : isReadOnlyQuery parse query deny = false) :
    runQuery parse fmt3339 db cfg deny query =
      ({ isError := true, message := some .readOnlyOnly,
         structured := emptyQueryOutput }, emptyQueryOutput, []) ∧
    runQueryForResource parse fmt3339 db cfg deny query =
      (.error .readOnlyOnly, []) := by
  constructor
  · simp [runQuery, hrej, toolErrorResultf]
  · simp [runQueryForResource, hrej]

/-- Witness for C9: the two-statement batch `select 1; select 2` is
rejected with no database event on either path. -/
theorem rejected_query_no_db_interaction_witness :
    runQuery sampleParse sampleFmt sampleDb sampleCfg []
        "select 1; select 2".toList =
      ({ isError := true, message := some .readOnlyOnly,
         structured := emptyQueryOutput }, emptyQueryOutput, []) ∧
    runQueryForResource sampleParse sampleFmt sampleDb sampleCfg []
        "select 1; select 2".toList =
      (.error .readOnlyOnly, []) :=
  rejected_query_no_db_interaction sampleParse sampleFmt sampleDb sampleCfg
    [] "select 1; select 2".toList (by decide)

/-- Claim C5: a catalog locator with an unknown shape (wrong scheme,
unknown host, wrong number of path segments) or a path segment failing the
`[A-Za-z0-9_]+` identifier pattern resolves to the not-found outcome with
no query executed (empty trace), while valid segments produce the
corresponding canned catalog query. -/
theorem readResource_locator_validation (parse : GoStr → Option Stmt)
    (fmt3339 : GoTime → GoStr) (db : DBBehavior) (cfg : MySQLConfig)
    (deny : List GoStr) (u : ParsedURL) :
    (resolveResource u = none →
      readResource parse fmt3339 db cfg deny u =
        (ReadResourceOutcome.notFound, [])) ∧
    (goToLower u.scheme ≠ "mysql".toList → resolveResource u = none) ∧
    (goToLower u.host ∉
        ["databases".toList, "tables".toList, "schema".toList] →
      resolveResource u = none) ∧
    (goToLower u.host = "databases".toList → urlPathParts u ≠ [] →
      resolveResource u = none) ∧
    (goToLower u.host = "tables".toList → (urlPathParts u).length ≠ 1 →
      resolveResource u = none) ∧
    (goToLower u.host = "tables".toList → ∀ d, urlPathParts u = [d] →
      mysqlIdentifierRE d = false → resolveResource u = none) ∧
    (goToLower u.host = "schema".toList → (urlPathParts u).length ≠ 2 →
      resolveResource u = none) ∧
    (goToLower u.host = "schema".toList → ∀ d t, urlPathParts u = [d, t] →
      (mysqlIdentifierRE d && mysqlIdentifierRE t) = false →
      resolveResource u = none) ∧
    (goToLower u.scheme = "mysql".toList →
      goToLower u.host = "databases".toList → urlPathParts u = [] →
      resolveResource u = some .showDatabases) ∧
    (goToLower u.scheme = "mysql".toList →
      goToLower u.host = "tables".toList → ∀ d, urlPathParts u = [d] →
      mysqlIdentifierRE d = true →
      resolveResource u = some (.showTables d)) ∧
    (goToLower u.scheme = "mysql".toList →
      goToLower u.host = "schema".toList → ∀ d t, urlPathParts u = [d, t] →
      mysqlIdentifierRE d = true → mysqlIdentifierRE t = true →
      resolveResource u = some (.describeTable d t)) := by
  refine ⟨?_, ?_, ?_, ?_, ?_, ?_, ?_, ?_, ?_, ?_, ?_⟩
  · intro h
    unfold readResource
    rw [h]
  · intro hs
    exact resolveResource_scheme_ne hs
  · intro hmem
    by_cases hs : goToLower u.scheme = "mysql".toList
    · rw [resolveResource_of_scheme hs]
      rw [if_neg (by intro h; exact hmem (by simp [h])),
        if_neg (by intro h; exact hmem (by simp [h])),
        if_neg (by intro h; exact hmem (by simp [h]))]
    · exact resolveResource_scheme_ne hs
  · intro hhost hne
    by_cases hs : goToLower u.scheme = "mysql".toList
    · rw [resolveResource_of_scheme hs, if_pos hhost]
      cases hp : urlPathParts u with
      | nil => exact absurd hp hne
      | cons a as => rfl
    · exact resolveResource_scheme_ne hs
  · intro hhost hlen
    by_cases hs : goToLower u.scheme = "mysql".toList
    · rw [resolveResource_of_scheme hs, if_neg (by rw [hhost]; decide),
        if_pos hhost]
      cases hp : urlPathParts u with
      | nil => rfl
      | cons a as =>
        cases as with
        | nil => exact absurd (by rw [hp]; rfl) hlen
        | cons b bs => rfl
    · exact resolveResource_scheme_ne hs
  · intro hhost d hp hid
    by_cases hs : goToLower u.scheme = "mysql".toList
    · rw [resolveResource_of_scheme hs, if_neg (by rw [hhost]; decide),
        if_pos hhost, hp]
      simp [hid]
    · exact resolveResource_scheme_ne hs
  · intro hhost hlen
    by_cases hs : goToLower u.scheme = "mysql".toList
    · rw [resolveResource_of_scheme hs, if_neg (by rw [hhost]; decide),
        if_neg (by rw [hhost]; decide), if_pos hhost]
      cases hp : urlPathParts u with
      | nil => rfl
      | cons a as =>
        cases as with
        | nil => rfl
        | cons b bs =>
          cases bs with
          | nil => exact absurd (by rw [hp]; rfl) hlen
          | cons c cs => rfl
    · exact resolveResource_scheme_ne hs
  · intro hhost d t hp hid
    by_cases hs : goToLower u.scheme = "mysql".toList
    · rw [resolveResource_of_scheme hs, if_neg (by rw [hhost]; decide),
        if_neg (by rw [hhost]; decide), if_pos hhost, hp]
      simp [hid]
    · exact resolveResource_scheme_ne hs
  · intro hs hhost hp
    rw [resolveResource_of_scheme hs, if_pos hhost, hp]
  · intro hs hhost d hp hid
    rw [resolveResource_of_scheme hs, if_neg (by rw [hhost]; decide),
      if_pos hhost, hp]
    simp [hid]
  · intro hs hhost d t hp hid1 hid2
    rw [resolveResource_of_scheme hs, if_neg (by rw [hhost]; decide),
      if_neg (by rw [hhost]; decide), if_pos hhost, hp]
    simp [hid1, hid2]

/-- Witness for C5: the locator `mysql://tables/my-db; drop` fails the
identifier whitelist, resolves to not-found, and executes nothing. -/
theorem readResource_locator_validation_witness :
    resolveResource sampleBadURL = none ∧
    readResource sampleParse sampleFmt sampleDb sampleCfg [] sampleBadURL =
      (ReadResourceOutcome.notFound, []) := by
  have h := readResource_locator_validation sampleParse sampleFmt sampleDb
    sampleCfg [] sampleBadURL
  have hnone : resolveResource sampleBadURL = none :=
    h.2.2.2.2.2.1 (by decide) "my-db; drop".toList (by decide) (by decide)
  exact ⟨hnone, h.1 hnone⟩

end Mysqlmcp
